import Mathlib

/-!
Shallow embedding of the reconciliation/validation engine of
`update_rfprofiles.py` (gve_devnet_meraki_radio_settings_updater).

Strings are modelled as `List Char` (`Str`), with Python's `str.split(",")`,
`str.strip()` and `str.lower()` embedded as executable functions below, so
that every definition evaluates inside the kernel.  Python dictionaries are
modelled as insertion-ordered association lists: writing to a key replaces
the value in place when the key exists and appends otherwise, exactly like
a Python `dict` assignment (`setKey`).
-/

abbrev Str := List Char

/-- Python `str.lower()` on an ASCII character (the script only lower-cases
network names, AP sentinels and model identifiers, which are ASCII). -/
def lowerChar (c : Char) : Char :=
  if 'A' ≤ c ∧ c ≤ 'Z' then Char.ofNat (c.toNat + 32) else c

/-- Python `str.lower()`. -/
def pyLower (s : Str) : Str := s.map lowerChar

/-- Whitespace stripped by Python `str.strip()` (space, tab, CR, LF). -/
def isSpaceChar (c : Char) : Bool := c == ' ' || c == '\t' || c == '\n' || c == '\r'

/-- Python `str.strip()`: drop leading and trailing whitespace. -/
def pyStrip (s : Str) : Str :=
  ((s.dropWhile isSpaceChar).reverse.dropWhile isSpaceChar).reverse

/-- Python `str.split(",")`: auxiliary walk holding the current field
(reversed).  Splitting the empty string yields `[ "" ]`, as in Python. -/
def splitCommaAux : List Char → List Char → List Str
  | [], cur => [cur.reverse]
  | c :: rest, cur =>
      if c = ',' then cur.reverse :: splitCommaAux rest []
      else splitCommaAux rest (c :: cur)

/-- Python `str.split(",")`. -/
def splitComma (s : Str) : List Str := splitCommaAux s []

/-- Python dict assignment `d[k] = v` on an insertion-ordered association
list: replace in place when the key is present, append otherwise. -/
def setKey {α : Type} (l : List (Str × α)) (k : Str) (v : α) : List (Str × α) :=
  match l with
  | [] => [(k, v)]
  | (k', v') :: rest => if k' = k then (k, v) :: rest else (k', v') :: setKey rest k v

/-- One row of the assignment CSV: raw column values for
`Network Name`, `RF Profiles` and `APs`. -/
structure Row where
  networkName : Str
  rfProfiles : Str
  aps : Str
deriving Repr, DecidableEq

/-- Baseline data for one network as built by `getRFProfiles`:
network `id` plus the mapping existing-profile-name to remote profile id. -/
structure BaselineNet where
  id : Str
  rf : List (Str × Str)
deriving Repr, DecidableEq

/-- The baseline snapshot `current`: lower-cased network name to
`BaselineNet`. -/
abbrev Baseline := List (Str × BaselineNet)

/-- `oper` tag of a change-set profile entry. -/
inductive Oper
  | add
  | update
deriving Repr, DecidableEq

/-- One profile entry of the change-set: the AP target list, the `oper`
tag, and the remote id (present for `update`, and filled in after a
successful create during apply). -/
structure PEntry where
  aps : List Str
  oper : Oper
  id : Option Str
deriving Repr, DecidableEq

/-- One network entry of the change-set: network id and profile entries. -/
structure NetEntry where
  id : Str
  rf : List (Str × PEntry)
deriving Repr, DecidableEq

/-- Accumulator of `validateAssignments`: the `good` counter, the three
rejection lists and the change-set `updates`. -/
structure VState where
  good : Nat
  bad_network : List Row
  bad_profiles : List Row
  bad_aps : List Row
  updates : List (Str × NetEntry)
deriving Repr, DecidableEq

/-- `[p.strip() for p in entry["RF Profiles"].split(",")]`. -/
def rowProfiles (e : Row) : List Str := (splitComma e.rfProfiles).map pyStrip

/-- `[p.strip() for p in entry["APs"].split(",")]`. -/
def rowAps (e : Row) : List Str := (splitComma e.aps).map pyStrip

/-- `entry["Network Name"].lower()`. -/
def rowNetwork (e : Row) : Str := pyLower e.networkName

/-- The profile names of a row that are missing from the loaded templates:
the inner loop appends the row to `bad_profiles` once for each of these. -/
def missingProfiles (templates : List Str) (e : Row) : List Str :=
  (rowProfiles e).filter (fun p => !templates.contains p)

/-- The source test
`if len(rf_profiles) > 1: if aps != "" and aps[0].lower() != "none"`.
`aps` is a list there, so `aps != ""` is always `True`; the effective
condition is on `aps[0]` alone.  (`aps` coming from `split` is never the
empty list, so the `headD` default is unreachable.) -/
def apConflict (ps : List Str) (aps : List Str) : Bool :=
  if 1 < ps.length then pyLower (aps.headD []) != "none".data else false

/-- Classification of one profile of an accepted row (lines 184-193):
`update` carrying the baseline id when the profile already exists in the
network's baseline, else `add` with no id. -/
def mkPEntry (ni : BaselineNet) (aps : List Str) (p : Str) : PEntry :=
  match List.lookup p ni.rf with
  | some pid => ⟨aps, Oper.update, some pid⟩
  | none => ⟨aps, Oper.add, none⟩

/-- `updates[target]["rf"]` built from a fresh `{}` by the per-profile
loop of an accepted row. -/
def mkRfEntries (ni : BaselineNet) (aps : List Str) (ps : List Str) : List (Str × PEntry) :=
  ps.foldl (fun acc p => setKey acc p (mkPEntry ni aps p)) []

/-- The body of the `for entry in assignments` loop of
`validateAssignments` (lines 156-194). -/
def validateStep (current : Baseline) (templates : List Str) (s : VState) (e : Row) : VState :=
  match List.lookup (rowNetwork e) current with
  | none => { s with bad_network := s.bad_network ++ [e] }
  | some ni =>
    if 0 < (missingProfiles templates e).length then
      { s with bad_profiles :=
          s.bad_profiles ++ List.replicate (missingProfiles templates e).length e }
    else if apConflict (rowProfiles e) (rowAps e) then
      { s with bad_aps := s.bad_aps ++ [e] }
    else
      { s with
          updates := setKey s.updates (rowNetwork e)
            ⟨ni.id, mkRfEntries ni (rowAps e) (rowProfiles e)⟩,
          good := s.good + 1 }

/-- Initial accumulator of `validateAssignments`. -/
def initVState : VState := ⟨0, [], [], [], []⟩

/-- `validateAssignments(current, new, assignments)` (lines 142-220),
up to the result reporting: the loop over the rows. -/
def validateAssignments (current : Baseline) (templates : List Str)
    (assignments : List Row) : VState :=
  assignments.foldl (validateStep current templates) initVState

/-- The fatal exit of `validateAssignments` (lines 196-219): `sys.exit(1)`
runs only inside the `good != len(assignments)` branch, when `good == 0`. -/
def validateFatal (current : Baseline) (templates : List Str)
    (assignments : List Row) : Bool :=
  ((validateAssignments current templates assignments).good != assignments.length)
    && ((validateAssignments current templates assignments).good == 0)

/-!
Embedding of `upload_profiles` (lines 223-323).  The dashboard client is a
collaborator; it is modelled by response functions, and the embedding also
records the trace of remote calls made.  Template documents are opaque to
control flow (`profiles[profile]` is passed through verbatim), so the
loaded templates are modelled by their name set; a lookup of a missing
name is a Python `KeyError`, an uncaught exception, modelled by the
`crashed` flag which halts all further processing.
-/

/-- A device returned by `getNetworkDevices`: serial and model strings. -/
structure Device where
  serial : Str
  model : Str
deriving Repr, DecidableEq

/-- One remote API call made during apply, in trace order. -/
inductive Call
  | createProf (netid pname : Str)
  | updateProf (netid rfid pname : Str)
  | getDevices (netid : Str)
  | setRadio (serial rfid : Str)
deriving Repr, DecidableEq

/-- A failure record `{network, profile, error}` appended to `errors`. -/
structure ErrRec where
  network : Str
  profile : Str
  error : Str
deriving Repr, DecidableEq

/-- The dashboard collaborator: the outcome of each remote call.
`createRes` yields the new profile id on success; `devicesRes` yields the
network's device list.  An `Except.error` is a raised `APIError` carrying
its message. -/
structure Dash where
  createRes : Str → Str → Except Str Str
  updateRes : Str → Str → Str → Except Str Unit
  devicesRes : Str → Except Str (List Device)
  radioRes : Str → Str → Except Str Unit

/-- Result of a piece of apply processing: failure records, the call
trace, and whether an uncaught exception (`KeyError`/`IndexError`) was
raised. -/
structure PRes where
  errors : List ErrRec
  calls : List Call
  crashed : Bool
deriving Repr, DecidableEq

/-- Python `"MR" in model` starting at the head of the list. -/
def startsWithMR : List Char → Bool
  | 'M' :: 'R' :: _ => true
  | _ => false

/-- Python substring test `"MR" in model` (line 279): containment, not a
prefix test. -/
def hasMR : List Char → Bool
  | [] => false
  | c :: rest => startsWithMR (c :: rest) || hasMR rest

/-- `for ap in aps: updateDeviceWirelessRadioSettings(...)` inside the
`try` block (lines 289-292): issue the call for each serial in order; the
first `APIError` aborts the rest and carries its message out. -/
def assignLoop (dash : Dash) (rfid : Str) : List Str → List Call × Option Str
  | [] => ([], none)
  | ap :: rest =>
      match dash.radioRes ap rfid with
      | Except.ok _ =>
          let r := assignLoop dash rfid rest
          (Call.setRadio ap rfid :: r.1, r.2)
      | Except.error m => ([Call.setRadio ap rfid], some m)

/-- Turn the optional caught `APIError` message of the AP phase into the
appended failure records. -/
def errOut (network pname : Str) : Option Str → List ErrRec
  | none => []
  | some m => [⟨network, pname, m⟩]

/-- The AP-assignment phase for one profile (lines 266-302), entered after
the profile create/update succeeded and `rfid` is known.  The head of
`aps` is inspected (`aps[0]`); an empty list would raise `IndexError`
(uncaught — `crashed`), though lists produced by validation are never
empty.  Head `none` is a no-op; head `all` resolves the device list and
filters by the `"MR" in model` containment test; otherwise the literal
list is used. -/
def apPhase (dash : Dash) (network netid pname rfid : Str) (aps : List Str) : PRes :=
  match aps with
  | [] => ⟨[], [], true⟩
  | a :: rest =>
      if pyLower a == "none".data then ⟨[], [], false⟩
      else if pyLower a == "all".data then
        match dash.devicesRes netid with
        | Except.error m => ⟨[⟨network, pname, m⟩], [Call.getDevices netid], false⟩
        | Except.ok devs =>
            let serials := (devs.filter (fun d => hasMR d.model)).map Device.serial
            let r := assignLoop dash rfid serials
            ⟨errOut network pname r.2, Call.getDevices netid :: r.1, false⟩
      else
        let r := assignLoop dash rfid (a :: rest)
        ⟨errOut network pname r.2, r.1, false⟩

/-- Processing of one profile of one network by `upload_profiles`
(lines 240-302): template lookup (`KeyError` when missing), the
create/update call with its failure record, then the AP phase.  An
`update` entry with no stored id raises `KeyError` while building the
call's arguments, before any call is made. -/
def uploadProfile (dash : Dash) (templates : List Str) (network netid pname : Str)
    (e : PEntry) : PRes :=
  if !templates.contains pname then ⟨[], [], true⟩
  else
    match e.oper with
    | Oper.add =>
        match dash.createRes netid pname with
        | Except.error m => ⟨[⟨network, pname, m⟩], [Call.createProf netid pname], false⟩
        | Except.ok rid =>
            let r := apPhase dash network netid pname rid e.aps
            ⟨r.errors, Call.createProf netid pname :: r.calls, r.crashed⟩
    | Oper.update =>
        match e.id with
        | none => ⟨[], [], true⟩
        | some rfid =>
            match dash.updateRes netid rfid pname with
            | Except.error m =>
                ⟨[⟨network, pname, m⟩], [Call.updateProf netid rfid pname], false⟩
            | Except.ok _ =>
                let r := apPhase dash network netid pname rfid e.aps
                ⟨r.errors, Call.updateProf netid rfid pname :: r.calls, r.crashed⟩

/-- Sequential accumulation of per-unit results; an uncaught exception in
the new unit stops everything after it. -/
def stepMerge (acc r : PRes) : PRes := ⟨acc.errors ++ r.errors, acc.calls ++ r.calls, r.crashed⟩

/-- The per-network profile loop of `upload_profiles` (lines 240-302). -/
def uploadNetwork (dash : Dash) (templates : List Str) (network : Str)
    (ne : NetEntry) : PRes :=
  ne.rf.foldl
    (fun acc pe =>
      if acc.crashed then acc
      else stepMerge acc (uploadProfile dash templates network ne.id pe.1 pe.2))
    ⟨[], [], false⟩

/-- `upload_profiles(changes, profiles, dashboard)` (lines 223-323), up to
the closing error report: the loop over the networks of the change-set. -/
def upload_profiles (dash : Dash) (templates : List Str)
    (changes : List (Str × NetEntry)) : PRes :=
  changes.foldl
    (fun acc ne =>
      if acc.crashed then acc
      else stepMerge acc (uploadNetwork dash templates ne.1 ne.2))
    ⟨[], [], false⟩

/-- Sufficient well-formedness of one change-set profile entry for apply
to raise no uncaught exception: the profile has a loaded template, an
`update` entry carries its id, and the AP list is non-empty (validation
always produces such entries). -/
def entryWF (templates : List Str) (pname : Str) (e : PEntry) : Bool :=
  templates.contains pname && (e.oper == Oper.add || e.id.isSome) && !e.aps.isEmpty

/-- Well-formedness of a change-set network entry. -/
def netWF (templates : List Str) (ne : NetEntry) : Bool :=
  ne.rf.all (fun pe => entryWF templates pe.1 pe.2)

/-- Well-formedness of a change-set. -/
def changesWF (templates : List Str) (changes : List (Str × NetEntry)) : Bool :=
  changes.all (fun ne => netWF templates ne.2)

/-! Association-list lemmas for the Python dict model. -/

theorem beq_false_of_ne_str {k k' : Str} (h : k ≠ k') : (k == k') = false :=
  beq_eq_false_iff_ne.mpr h

theorem lookup_setKey_self {α : Type} (l : List (Str × α)) (k : Str) (v : α) :
    List.lookup k (setKey l k v) = some v := by
  induction l with
  | nil => simp [setKey, List.lookup]
  | cons p rest ih =>
      obtain ⟨k', v'⟩ := p
      by_cases h : k' = k
      · simp [setKey, h, List.lookup]
      · simp [setKey, h, List.lookup, ih, beq_false_of_ne_str (Ne.symm h)]

theorem lookup_setKey_ne {α : Type} (l : List (Str × α)) (k k' : Str) (v : α)
    (h : k' ≠ k) : List.lookup k' (setKey l k v) = List.lookup k' l := by
  induction l with
  | nil => simp [setKey, List.lookup, beq_false_of_ne_str h]
  | cons p rest ih =>
      obtain ⟨a, b⟩ := p
      by_cases hak : a = k
      · subst hak
        simp [setKey, List.lookup, beq_false_of_ne_str h]
      · simp [setKey, hak, List.lookup, ih]

/-- C4 (amended): the `sys.exit(1)` of `validateAssignments` fires exactly
when zero rows were accepted AND the input list was non-empty; with an
empty input `good == len(assignments)` holds trivially and the run
proceeds.  At least one accepted row is never fatal. -/
theorem validateFatal_iff (c : Baseline) (ts : List Str) (rows : List Row) :
    (validateFatal c ts rows = true ↔
      (validateAssignments c ts rows).good = 0 ∧ rows ≠ [])
    ∧ (0 < (validateAssignments c ts rows).good → validateFatal c ts rows = false) := by
  have h : validateFatal c ts rows = true ↔
      ((validateAssignments c ts rows).good ≠ rows.length
        ∧ (validateAssignments c ts rows).good = 0) := by
    simp [validateFatal]
  constructor
  · rw [h]
    constructor
    · rintro ⟨hne, h0⟩
      refine ⟨h0, ?_⟩
      intro hnil
      apply hne
      rw [h0, hnil]
      rfl
    · rintro ⟨h0, hnil⟩
      refine ⟨?_, h0⟩
      rw [h0]
      intro hl
      exact hnil (List.length_eq_zero.mp hl.symm)
  · intro hg
    cases hf : validateFatal c ts rows
    · rfl
    · exfalso
      have h2 := (h.mp hf).2
      omega

/-- C4 counterexample: with an empty assignment list zero rows are
accepted, yet the code does not exit fatally (the `good != len` guard is
false), contradicting the claim for the empty input. -/
theorem zero_rows_not_fatal_on_empty_input :
    (validateAssignments [("n1".data, ⟨"N1".data, []⟩)] ["p1".data] []).good = 0
    ∧ validateFatal [("n1".data, ⟨"N1".data, []⟩)] ["p1".data] [] = false := by
  decide

/-- C1 (amended): an accepted row does not merge into an existing network
entry — `updates[target_network] = {}` resets it — so after the row is
processed the network's change-set entry holds exactly the profiles of
this row, whatever the previous state held; entries of other networks are
untouched. -/
theorem acceptedRow_replaces_network_entry (c : Baseline) (ts : List Str)
    (s : VState) (e : Row) (ni : BaselineNet)
    (hnet : List.lookup (rowNetwork e) c = some ni)
    (hprof : missingProfiles ts e = [])
    (hconf : apConflict (rowProfiles e) (rowAps e) = false) :
    List.lookup (rowNetwork e) (validateStep c ts s e).updates
        = some ⟨ni.id, mkRfEntries ni (rowAps e) (rowProfiles e)⟩
    ∧ ∀ k, k ≠ rowNetwork e →
        List.lookup k (validateStep c ts s e).updates = List.lookup k s.updates := by
  unfold validateStep
  rw [hnet]
  simp only [hprof, hconf, List.length_nil, Nat.lt_irrefl, if_false, Bool.false_eq_true]
  exact ⟨lookup_setKey_self _ _ _, fun k hk => lookup_setKey_ne _ _ _ _ hk⟩

/-- Witness for C1's amended theorem at a concrete accepted row. -/
theorem acceptedRow_replaces_network_entry_witness :
    (List.lookup (rowNetwork ⟨"n1".data, "p2".data, "none".data⟩)
        [("n1".data, (⟨"N1".data, []⟩ : BaselineNet))] = some ⟨"N1".data, []⟩)
    ∧ (List.lookup (rowNetwork ⟨"n1".data, "p2".data, "none".data⟩)
        (validateStep [("n1".data, ⟨"N1".data, []⟩)] ["p1".data, "p2".data]
          ⟨1, [], [], [],
            [("n1".data, ⟨"N1".data, [("p1".data, ⟨["none".data], Oper.add, none⟩)]⟩)]⟩
          ⟨"n1".data, "p2".data, "none".data⟩).updates
        = some ⟨"N1".data,
            mkRfEntries ⟨"N1".data, []⟩ (rowAps ⟨"n1".data, "p2".data, "none".data⟩)
              (rowProfiles ⟨"n1".data, "p2".data, "none".data⟩)⟩) :=
  ⟨by decide,
    (acceptedRow_replaces_network_entry
      [("n1".data, ⟨"N1".data, []⟩)] ["p1".data, "p2".data]
      ⟨1, [], [], [],
        [("n1".data, ⟨"N1".data, [("p1".data, ⟨["none".data], Oper.add, none⟩)]⟩)]⟩
      ⟨"n1".data, "p2".data, "none".data⟩ ⟨"N1".data, []⟩
      (by decide) (by decide) (by decide)).1⟩

/-- C1 counterexample: two valid rows for network `n1` with different
profiles `p1` then `p2`; both are accepted (`good = 2`) but the final
change-set entry for `n1` holds only `p2` — the second row removed the
first row's profile, refuting additivity. -/
theorem additivity_counterexample :
    (validateAssignments [("n1".data, ⟨"N1".data, []⟩)] ["p1".data, "p2".data]
        [⟨"n1".data, "p1".data, "none".data⟩, ⟨"n1".data, "p2".data, "none".data⟩]).good = 2
    ∧ (validateAssignments [("n1".data, ⟨"N1".data, []⟩)] ["p1".data, "p2".data]
        [⟨"n1".data, "p1".data, "none".data⟩, ⟨"n1".data, "p2".data, "none".data⟩]).updates
      = [("n1".data, ⟨"N1".data, [("p2".data, ⟨["none".data], Oper.add, none⟩)]⟩)]
    ∧ List.lookup "p1".data
        [("p2".data, (⟨["none".data], Oper.add, none⟩ : PEntry))] = none := by
  decide

/-- C2 counterexample: a row naming two valid profiles on a valid network
with an EMPTY `APs` column is rejected as a multi-profile/AP conflict
(`bad_aps`), not accepted: `"".split(",")` is `[""]`, the source's
`aps != ""` compares a list to a string and is always true, and
`"" != "none"`. -/
theorem multiProfile_emptyAps_rejected :
    (validateAssignments [("n1".data, ⟨"N1".data, []⟩)] ["p1".data, "p2".data]
        [⟨"n1".data, "p1, p2".data, "".data⟩]).bad_aps
      = [⟨"n1".data, "p1, p2".data, "".data⟩]
    ∧ (validateAssignments [("n1".data, ⟨"N1".data, []⟩)] ["p1".data, "p2".data]
        [⟨"n1".data, "p1, p2".data, "".data⟩]).updates = []
    ∧ (validateAssignments [("n1".data, ⟨"N1".data, []⟩)] ["p1".data, "p2".data]
        [⟨"n1".data, "p1, p2".data, "".data⟩]).good = 0 := by
  decide

/-- C2 (amended): a multi-profile row with valid network and profiles is
rejected as a conflict exactly when the first element of its
(split, stripped) AP list does not lower-case to `none`; in particular an
empty `APs` column (first element `""`) is rejected, and a list whose
head is `none` is accepted regardless of further elements. -/
theorem multiProfile_conflict_iff_head_not_none (c : Baseline) (ts : List Str)
    (s : VState) (e : Row) (ni : BaselineNet)
    (hnet : List.lookup (rowNetwork e) c = some ni)
    (hprof : missingProfiles ts e = [])
    (hlen : 1 < (rowProfiles e).length) :
    (pyLower ((rowAps e).headD []) ≠ "none".data →
      validateStep c ts s e = { s with bad_aps := s.bad_aps ++ [e] })
    ∧ (pyLower ((rowAps e).headD []) = "none".data →
      (validateStep c ts s e).good = s.good + 1
      ∧ (validateStep c ts s e).bad_aps = s.bad_aps) := by
  unfold validateStep
  rw [hnet]
  simp only [hprof, List.length_nil, Nat.lt_irrefl, if_false]
  constructor
  · intro hne
    have hcond : apConflict (rowProfiles e) (rowAps e) = true := by
      rw [List.headD_eq_head?] at hne
      simp [apConflict, hlen, List.headD_eq_head?, hne]
    simp [hcond]
  · intro heq
    have hcond : apConflict (rowProfiles e) (rowAps e) = false := by
      rw [List.headD_eq_head?] at heq
      simp [apConflict, hlen, List.headD_eq_head?, heq]
    simp [hcond]

/-- Witness for C2's amended theorem: the rejecting direction at the
concrete multi-profile row with an empty `APs` column. -/
theorem multiProfile_conflict_iff_head_not_none_witness :
    (List.lookup (rowNetwork ⟨"n1".data, "p1, p2".data, "".data⟩)
        [("n1".data, (⟨"N1".data, []⟩ : BaselineNet))] = some ⟨"N1".data, []⟩)
    ∧ (pyLower ((rowAps ⟨"n1".data, "p1, p2".data, "".data⟩).headD []) ≠ "none".data)
    ∧ validateStep [("n1".data, ⟨"N1".data, []⟩)] ["p1".data, "p2".data]
        initVState ⟨"n1".data, "p1, p2".data, "".data⟩
      = { initVState with bad_aps := initVState.bad_aps ++ [⟨"n1".data, "p1, p2".data, "".data⟩] } :=
  ⟨by decide, by decide,
    (multiProfile_conflict_iff_head_not_none
      [("n1".data, ⟨"N1".data, []⟩)] ["p1".data, "p2".data] initVState
      ⟨"n1".data, "p1, p2".data, "".data⟩ ⟨"N1".data, []⟩
      (by decide) (by decide) (by decide)).1 (by decide)⟩

/-- C10: a row with a valid network and `k ≥ 1` profile names missing from
the templates is appended to `bad_profiles` once per missing name —
`List.replicate k` — while `updates`, `good`, `bad_network` and `bad_aps`
are untouched (the row is excluded exactly once). -/
theorem profile_mismatch_duplicate_reports (c : Baseline) (ts : List Str)
    (s : VState) (e : Row) (ni : BaselineNet)
    (hnet : List.lookup (rowNetwork e) c = some ni)
    (hk : 0 < (missingProfiles ts e).length) :
    validateStep c ts s e
      = { s with bad_profiles :=
            s.bad_profiles ++ List.replicate (missingProfiles ts e).length e } := by
  unfold validateStep
  rw [hnet]
  simp [hk]

/-- Witness for C10 at a row with two missing profiles: the row is
reported twice (and nothing else changes). -/
theorem profile_mismatch_duplicate_reports_witness :
    (List.lookup (rowNetwork ⟨"n1".data, "q1, q2".data, "none".data⟩)
        [("n1".data, (⟨"N1".data, []⟩ : BaselineNet))] = some ⟨"N1".data, []⟩)
    ∧ (0 < (missingProfiles ["p1".data] ⟨"n1".data, "q1, q2".data, "none".data⟩).length)
    ∧ validateStep [("n1".data, ⟨"N1".data, []⟩)] ["p1".data]
        initVState ⟨"n1".data, "q1, q2".data, "none".data⟩
      = (⟨0, [], [⟨"n1".data, "q1, q2".data, "none".data⟩, ⟨"n1".data, "q1, q2".data, "none".data⟩], [], []⟩ : VState) :=
  ⟨by decide, by decide,
    profile_mismatch_duplicate_reports [("n1".data, ⟨"N1".data, []⟩)] ["p1".data]
      initVState ⟨"n1".data, "q1, q2".data, "none".data⟩ ⟨"N1".data, []⟩
      (by decide) (by decide)⟩

/-! Lemmas for the classification invariant (C5). -/

theorem lookup_foldl_setKey_mkPEntry (ni : BaselineNet) (aps : List Str) :
    ∀ (ps : List Str) (acc : List (Str × PEntry)),
      (∀ p pe, List.lookup p acc = some pe → pe = mkPEntry ni aps p) →
      ∀ p pe,
        List.lookup p (ps.foldl (fun a q => setKey a q (mkPEntry ni aps q)) acc) = some pe →
        pe = mkPEntry ni aps p
  | [], _, h => h
  | q :: ps, acc, h => by
      intro p pe hl
      refine lookup_foldl_setKey_mkPEntry ni aps ps (setKey acc q (mkPEntry ni aps q)) ?_ p pe hl
      intro p' pe' hl'
      by_cases hpq : p' = q
      · subst hpq
        rw [lookup_setKey_self] at hl'
        exact (Option.some.inj hl').symm
      · rw [lookup_setKey_ne _ _ _ _ hpq] at hl'
        exact h p' pe' hl'

theorem lookup_mkRfEntries (ni : BaselineNet) (aps : List Str) (ps : List Str)
    (p : Str) (pe : PEntry) (h : List.lookup p (mkRfEntries ni aps ps) = some pe) :
    pe = mkPEntry ni aps p := by
  refine lookup_foldl_setKey_mkPEntry ni aps ps [] ?_ p pe h
  intro p' pe' hl'
  simp [List.lookup] at hl'

/-- Invariant maintained on `updates`: every stored profile entry is the
classification `mkPEntry` of its profile name against the baseline of its
network. -/
def classifiedOK (c : Baseline) (u : List (Str × NetEntry)) : Prop :=
  ∀ n ne, List.lookup n u = some ne →
    ∃ ni, List.lookup n c = some ni ∧ ne.id = ni.id ∧
      ∀ p pe, List.lookup p ne.rf = some pe → ∃ aps, pe = mkPEntry ni aps p

theorem classifiedOK_step (c : Baseline) (ts : List Str) (s : VState) (e : Row)
    (h : classifiedOK c s.updates) : classifiedOK c (validateStep c ts s e).updates := by
  unfold validateStep
  cases hnet : List.lookup (rowNetwork e) c with
  | none => simpa using h
  | some ni =>
      dsimp only
      split
      · simpa using h
      · split
        · simpa using h
        · intro n ne hn
          by_cases hkey : n = rowNetwork e
          · subst hkey
            rw [lookup_setKey_self] at hn
            obtain rfl : NetEntry.mk ni.id (mkRfEntries ni (rowAps e) (rowProfiles e)) = ne :=
              Option.some.inj hn
            refine ⟨ni, hnet, rfl, ?_⟩
            intro p pe hp
            exact ⟨rowAps e, lookup_mkRfEntries ni (rowAps e) (rowProfiles e) p pe hp⟩
          · rw [lookup_setKey_ne _ _ _ _ hkey] at hn
            exact h n ne hn

theorem classifiedOK_foldl (c : Baseline) (ts : List Str) :
    ∀ (rows : List Row) (s : VState), classifiedOK c s.updates →
      classifiedOK c (rows.foldl (validateStep c ts) s).updates
  | [], _, h => h
  | e :: rows, s, h =>
      classifiedOK_foldl c ts rows (validateStep c ts s e) (classifiedOK_step c ts s e h)

/-- C5: every profile entry in the change-set built by
`validateAssignments` is classified against its network's baseline:
`oper = update` carrying the baseline's id when the profile name exists
there, `oper = add` with no id otherwise.  `validateAssignments` is a
pure function of its inputs, so re-validating the same inputs yields the
same classification. -/
theorem changeSet_oper_classification (c : Baseline) (ts : List Str) (rows : List Row)
    (n : Str) (ne : NetEntry) (p : Str) (pe : PEntry)
    (hn : List.lookup n (validateAssignments c ts rows).updates = some ne)
    (hp : List.lookup p ne.rf = some pe) :
    ∃ ni, List.lookup n c = some ni ∧ ne.id = ni.id
      ∧ (∀ pid, List.lookup p ni.rf = some pid →
          pe.oper = Oper.update ∧ pe.id = some pid)
      ∧ (List.lookup p ni.rf = none → pe.oper = Oper.add ∧ pe.id = none) := by
  have hinv : classifiedOK c (validateAssignments c ts rows).updates := by
    refine classifiedOK_foldl c ts rows initVState ?_
    intro n' ne' hn'
    simp [initVState, List.lookup] at hn'
  obtain ⟨ni, hni, hid, hcl⟩ := hinv n ne hn
  obtain ⟨aps, rfl⟩ := hcl p pe hp
  refine ⟨ni, hni, hid, ?_, ?_⟩
  · intro pid hpid
    simp [mkPEntry, hpid]
  · intro hnone
    simp [mkPEntry, hnone]

/-- Witness for C5: a baseline profile `p1` with remote id `R1` is
classified `update` carrying `R1`. -/
theorem changeSet_oper_classification_witness :
    (List.lookup "n1".data
        (validateAssignments [("n1".data, ⟨"N1".data, [("p1".data, "R1".data)]⟩)]
          ["p1".data] [⟨"n1".data, "p1".data, "none".data⟩]).updates
      = some ⟨"N1".data, [("p1".data, ⟨["none".data], Oper.update, some "R1".data⟩)]⟩)
    ∧ (∃ ni, List.lookup "n1".data [("n1".data, (⟨"N1".data, [("p1".data, "R1".data)]⟩ : BaselineNet))] = some ni
        ∧ ("N1".data : Str) = ni.id
        ∧ (∀ pid, List.lookup "p1".data ni.rf = some pid →
            (⟨["none".data], Oper.update, some "R1".data⟩ : PEntry).oper = Oper.update
            ∧ (⟨["none".data], Oper.update, some "R1".data⟩ : PEntry).id = some pid)
        ∧ (List.lookup "p1".data ni.rf = none →
            (⟨["none".data], Oper.update, some "R1".data⟩ : PEntry).oper = Oper.add
            ∧ (⟨["none".data], Oper.update, some "R1".data⟩ : PEntry).id = none)) :=
  ⟨by decide,
    changeSet_oper_classification
      [("n1".data, ⟨"N1".data, [("p1".data, "R1".data)]⟩)] ["p1".data]
      [⟨"n1".data, "p1".data, "none".data⟩] "n1".data
      ⟨"N1".data, [("p1".data, ⟨["none".data], Oper.update, some "R1".data⟩)]⟩
      "p1".data ⟨["none".data], Oper.update, some "R1".data⟩
      (by decide) (by decide)⟩

/-! Lemmas tracking the rejection lists through the fold (C7). -/

theorem validateStep_bad_network_miss (c : Baseline) (ts : List Str) (s : VState) (e : Row)
    (hnet : List.lookup (rowNetwork e) c = none) :
    validateStep c ts s e = { s with bad_network := s.bad_network ++ [e] } := by
  unfold validateStep
  rw [hnet]

theorem validateStep_keeps_bad_network (c : Baseline) (ts : List Str) (s : VState) (e : Row)
    (ni : BaselineNet) (hnet : List.lookup (rowNetwork e) c = some ni) :
    (validateStep c ts s e).bad_network = s.bad_network := by
  unfold validateStep
  rw [hnet]
  dsimp only
  split
  · rfl
  · split <;> rfl

theorem foldl_bad_network (c : Baseline) (ts : List Str) :
    ∀ (rows : List Row) (s : VState),
      (rows.foldl (validateStep c ts) s).bad_network
        = s.bad_network ++ rows.filter (fun e => (List.lookup (rowNetwork e) c).isNone)
  | [], s => by simp
  | e :: rows, s => by
      rw [List.foldl_cons, foldl_bad_network c ts rows _, List.filter_cons]
      cases hnet : List.lookup (rowNetwork e) c with
      | none =>
          rw [validateStep_bad_network_miss c ts s e hnet]
          simp
      | some ni =>
          rw [validateStep_keeps_bad_network c ts s e ni hnet]
          simp

theorem validateStep_updates_congr (c : Baseline) (ts : List Str) (s₁ s₂ : VState) (e : Row)
    (h : s₁.updates = s₂.updates) :
    (validateStep c ts s₁ e).updates = (validateStep c ts s₂ e).updates := by
  unfold validateStep
  cases hnet : List.lookup (rowNetwork e) c with
  | none => simpa using h
  | some ni =>
      dsimp only
      split
      · simpa using h
      · split
        · simpa using h
        · dsimp only
          rw [h]

theorem foldl_updates_congr (c : Baseline) (ts : List Str) :
    ∀ (rows : List Row) (s₁ s₂ : VState), s₁.updates = s₂.updates →
      (rows.foldl (validateStep c ts) s₁).updates
        = (rows.foldl (validateStep c ts) s₂).updates
  | [], _, _, h => h
  | e :: rows, s₁, s₂, h =>
      foldl_updates_congr c ts rows _ _ (validateStep_updates_congr c ts s₁ s₂ e h)

theorem foldl_updates_filter (c : Baseline) (ts : List Str) :
    ∀ (rows : List Row) (s : VState),
      (rows.foldl (validateStep c ts) s).updates
        = ((rows.filter (fun e => (List.lookup (rowNetwork e) c).isSome)).foldl
            (validateStep c ts) s).updates
  | [], _ => rfl
  | e :: rows, s => by
      rw [List.foldl_cons, List.filter_cons]
      cases hnet : List.lookup (rowNetwork e) c with
      | none =>
          simp only [hnet, Option.isSome_none, Bool.false_eq_true, if_false]
          rw [foldl_updates_filter c ts rows (validateStep c ts s e)]
          refine foldl_updates_congr c ts _ _ _ ?_
          rw [validateStep_bad_network_miss c ts s e hnet]
      | some ni =>
          simp only [hnet, Option.isSome_some, if_true]
          rw [List.foldl_cons]
          exact foldl_updates_filter c ts rows (validateStep c ts s e)

theorem mem_bad_profiles_has_network (c : Baseline) (ts : List Str) :
    ∀ (rows : List Row) (s : VState) (x : Row),
      x ∈ (rows.foldl (validateStep c ts) s).bad_profiles →
      x ∈ s.bad_profiles ∨ (List.lookup (rowNetwork x) c).isSome = true
  | [], _, _, h => Or.inl h
  | e :: rows, s, x, h => by
      rw [List.foldl_cons] at h
      rcases mem_bad_profiles_has_network c ts rows _ x h with h1 | h2
      · cases hnet : List.lookup (rowNetwork e) c with
        | none =>
            rw [validateStep_bad_network_miss c ts s e hnet] at h1
            exact Or.inl h1
        | some ni =>
            unfold validateStep at h1
            rw [hnet] at h1
            dsimp only at h1
            by_cases hm : 0 < (missingProfiles ts e).length
            · rw [if_pos hm] at h1
              dsimp only at h1
              rcases List.mem_append.mp h1 with ha | hb
              · exact Or.inl ha
              · have hx : x = e := List.eq_of_mem_replicate hb
                subst hx
                rw [hnet]
                exact Or.inr rfl
            · rw [if_neg hm] at h1
              split at h1 <;> exact Or.inl h1
      · exact Or.inr h2

theorem mem_bad_aps_has_network (c : Baseline) (ts : List Str) :
    ∀ (rows : List Row) (s : VState) (x : Row),
      x ∈ (rows.foldl (validateStep c ts) s).bad_aps →
      x ∈ s.bad_aps ∨ (List.lookup (rowNetwork x) c).isSome = true
  | [], _, _, h => Or.inl h
  | e :: rows, s, x, h => by
      rw [List.foldl_cons] at h
      rcases mem_bad_aps_has_network c ts rows _ x h with h1 | h2
      · cases hnet : List.lookup (rowNetwork e) c with
        | none =>
            rw [validateStep_bad_network_miss c ts s e hnet] at h1
            exact Or.inl h1
        | some ni =>
            unfold validateStep at h1
            rw [hnet] at h1
            dsimp only at h1
            by_cases hm : 0 < (missingProfiles ts e).length
            · rw [if_pos hm] at h1
              exact Or.inl h1
            · rw [if_neg hm] at h1
              by_cases hc : apConflict (rowProfiles e) (rowAps e) = true
              · rw [if_pos hc] at h1
                dsimp only at h1
                rcases List.mem_append.mp h1 with ha | hb
                · exact Or.inl ha
                · have hx : x = e := by simpa using hb
                  subst hx
                  rw [hnet]
                  exact Or.inr rfl
              · rw [if_neg hc] at h1
                exact Or.inl h1
      · exact Or.inr h2

/-- C7: the rows whose lower-cased network name misses the baseline are
exactly the `NetworkNameMismatch` report (in input order, one report per
row occurrence); such rows contribute nothing to the change-set —
validating only the remaining rows yields the same `updates` — and no
such row reaches either other rejection report. -/
theorem bad_network_rejection_completeness (c : Baseline) (ts : List Str) (rows : List Row) :
    ((validateAssignments c ts rows).bad_network
        = rows.filter (fun e => (List.lookup (rowNetwork e) c).isNone))
    ∧ ((validateAssignments c ts rows).updates
        = (validateAssignments c ts
            (rows.filter (fun e => (List.lookup (rowNetwork e) c).isSome))).updates)
    ∧ (∀ x ∈ (validateAssignments c ts rows).bad_profiles,
        (List.lookup (rowNetwork x) c).isSome = true)
    ∧ (∀ x ∈ (validateAssignments c ts rows).bad_aps,
        (List.lookup (rowNetwork x) c).isSome = true) := by
  refine ⟨?_, ?_, ?_, ?_⟩
  · simpa [initVState] using foldl_bad_network c ts rows initVState
  · exact foldl_updates_filter c ts rows initVState
  · intro x hx
    rcases mem_bad_profiles_has_network c ts rows initVState x hx with h | h
    · simp [initVState] at h
    · exact h
  · intro x hx
    rcases mem_bad_aps_has_network c ts rows initVState x hx with h | h
    · simp [initVState] at h
    · exact h

/-! Crash-freedom and decomposition of the apply loops (C6, C8, C9). -/

theorem apPhase_crashed_false (dash : Dash) (network netid pname rfid : Str)
    (a : Str) (rest : List Str) :
    (apPhase dash network netid pname rfid (a :: rest)).crashed = false := by
  unfold apPhase
  dsimp only
  split
  · rfl
  · split
    · split <;> rfl
    · rfl

theorem uploadProfile_crashed_false (dash : Dash) (ts : List Str)
    (network netid pname : Str) (e : PEntry) (h : entryWF ts pname e = true) :
    (uploadProfile dash ts network netid pname e).crashed = false := by
  obtain ⟨aps, oper, oid⟩ := e
  simp only [entryWF, Bool.and_eq_true, Bool.or_eq_true] at h
  obtain ⟨⟨hc, hor⟩, hne⟩ := h
  unfold uploadProfile
  rw [hc]
  dsimp only
  cases oper with
  | add =>
      cases hcr : dash.createRes netid pname with
      | error m => rfl
      | ok rid =>
          dsimp only
          cases aps with
          | nil => simp at hne
          | cons a rest => exact apPhase_crashed_false dash network netid pname rid a rest
  | update =>
      cases oid with
      | none => simp at hor
      | some rfid =>
          dsimp only
          cases hupd : dash.updateRes netid rfid pname with
          | error m => rfl
          | ok u =>
              dsimp only
              cases aps with
              | nil => simp at hne
              | cons a rest => exact apPhase_crashed_false dash network netid pname rfid a rest

theorem foldPRes {α : Type} (f : α → PRes) :
    ∀ (l : List α) (es : List ErrRec) (cs : List Call),
      (∀ a ∈ l, (f a).crashed = false) →
      l.foldl (fun acc a => if acc.crashed then acc else stepMerge acc (f a)) ⟨es, cs, false⟩
        = ⟨es ++ l.flatMap (fun a => (f a).errors),
           cs ++ l.flatMap (fun a => (f a).calls), false⟩
  | [], es, cs, _ => by simp
  | a :: l, es, cs, h => by
      rw [List.foldl_cons]
      have ha : (f a).crashed = false := h a (List.mem_cons_self a l)
      have hrec := foldPRes f l (es ++ (f a).errors) (cs ++ (f a).calls)
        (fun x hx => h x (List.mem_cons_of_mem a hx))
      simp only [if_neg]
      rw [show (if (⟨es, cs, false⟩ : PRes).crashed = true
            then (⟨es, cs, false⟩ : PRes) else stepMerge ⟨es, cs, false⟩ (f a))
          = stepMerge ⟨es, cs, false⟩ (f a) from by simp]
      rw [show stepMerge ⟨es, cs, false⟩ (f a)
          = ⟨es ++ (f a).errors, cs ++ (f a).calls, false⟩ from by simp [stepMerge, ha]]
      rw [hrec]
      simp [List.flatMap_cons, List.append_assoc]

theorem uploadNetwork_decomp (dash : Dash) (ts : List Str) (network : Str)
    (ne : NetEntry) (h : netWF ts ne = true) :
    uploadNetwork dash ts network ne
      = ⟨ne.rf.flatMap (fun pe => (uploadProfile dash ts network ne.id pe.1 pe.2).errors),
         ne.rf.flatMap (fun pe => (uploadProfile dash ts network ne.id pe.1 pe.2).calls),
         false⟩ := by
  have hall : ∀ pe ∈ ne.rf,
      (uploadProfile dash ts network ne.id pe.1 pe.2).crashed = false := by
    intro pe hpe
    refine uploadProfile_crashed_false dash ts network ne.id pe.1 pe.2 ?_
    exact List.all_eq_true.mp h pe hpe
  have := foldPRes (fun pe => uploadProfile dash ts network ne.id pe.1 pe.2) ne.rf [] [] hall
  simpa [uploadNetwork] using this

theorem upload_profiles_decomp (dash : Dash) (ts : List Str)
    (changes : List (Str × NetEntry)) (h : changesWF ts changes = true) :
    upload_profiles dash ts changes
      = ⟨changes.flatMap (fun ne => ne.2.rf.flatMap
            (fun pe => (uploadProfile dash ts ne.1 ne.2.id pe.1 pe.2).errors)),
         changes.flatMap (fun ne => ne.2.rf.flatMap
            (fun pe => (uploadProfile dash ts ne.1 ne.2.id pe.1 pe.2).calls)),
         false⟩ := by
  have hwf : ∀ ne ∈ changes, netWF ts ne.2 = true := fun ne hne => List.all_eq_true.mp h ne hne
  have hall : ∀ ne ∈ changes, (uploadNetwork dash ts ne.1 ne.2).crashed = false := by
    intro ne hne
    rw [uploadNetwork_decomp dash ts ne.1 ne.2 (hwf ne hne)]
  have hfold := foldPRes (fun ne => uploadNetwork dash ts ne.1 ne.2) changes [] [] hall
  have herr : changes.flatMap (fun ne => (uploadNetwork dash ts ne.1 ne.2).errors)
      = changes.flatMap (fun ne => ne.2.rf.flatMap
          (fun pe => (uploadProfile dash ts ne.1 ne.2.id pe.1 pe.2).errors)) := by
    refine List.flatMap_congr ?_
    intro ne hne
    rw [uploadNetwork_decomp dash ts ne.1 ne.2 (hwf ne hne)]
  have hcall : changes.flatMap (fun ne => (uploadNetwork dash ts ne.1 ne.2).calls)
      = changes.flatMap (fun ne => ne.2.rf.flatMap
          (fun pe => (uploadProfile dash ts ne.1 ne.2.id pe.1 pe.2).calls)) := by
    refine List.flatMap_congr ?_
    intro ne hne
    rw [uploadNetwork_decomp dash ts ne.1 ne.2 (hwf ne hne)]
  rw [upload_profiles, hfold, herr, hcall]
  simp

/-- C6: with a well-formed change-set, apply decomposes per (network,
profile) pair — every pair is processed and contributes its own error
records and calls, so one pair's failure never blocks siblings or other
networks — and a profile whose create/update call fails contributes
exactly one `{network, profile, error}` record and performs no per-device
radio-settings call. -/
theorem upload_failure_isolation (dash : Dash) (ts : List Str)
    (changes : List (Str × NetEntry)) (h : changesWF ts changes = true) :
    ((upload_profiles dash ts changes).errors
        = changes.flatMap (fun ne => ne.2.rf.flatMap
            (fun pe => (uploadProfile dash ts ne.1 ne.2.id pe.1 pe.2).errors)))
    ∧ ((upload_profiles dash ts changes).calls
        = changes.flatMap (fun ne => ne.2.rf.flatMap
            (fun pe => (uploadProfile dash ts ne.1 ne.2.id pe.1 pe.2).calls)))
    ∧ (∀ (network netid pname : Str) (e : PEntry) (m : Str),
        entryWF ts pname e = true →
        ((e.oper = Oper.add ∧ dash.createRes netid pname = Except.error m)
          ∨ (e.oper = Oper.update
              ∧ ∃ r, e.id = some r ∧ dash.updateRes netid r pname = Except.error m)) →
        (uploadProfile dash ts network netid pname e).errors = [⟨network, pname, m⟩]
        ∧ ∀ sr rf, Call.setRadio sr rf ∉ (uploadProfile dash ts network netid pname e).calls) := by
  refine ⟨?_, ?_, ?_⟩
  · rw [upload_profiles_decomp dash ts changes h]
  · rw [upload_profiles_decomp dash ts changes h]
  · intro network netid pname e m hwf hfail
    simp only [entryWF, Bool.and_eq_true] at hwf
    have hc : ts.contains pname = true := hwf.1.1
    rcases hfail with ⟨hoper, hcr⟩ | ⟨hoper, r, hid, hupd⟩
    · have : uploadProfile dash ts network netid pname e
          = ⟨[⟨network, pname, m⟩], [Call.createProf netid pname], false⟩ := by
        unfold uploadProfile
        rw [hc, hoper]
        rw [hcr]
        simp
      rw [this]
      exact ⟨rfl, by intro sr rf hmem; simp at hmem⟩
    · have : uploadProfile dash ts network netid pname e
          = ⟨[⟨network, pname, m⟩], [Call.updateProf netid r pname], false⟩ := by
        unfold uploadProfile
        rw [hc, hoper]
        rw [hid]
        dsimp only
        rw [hupd]
        simp
      rw [this]
      exact ⟨rfl, by intro sr rf hmem; simp at hmem⟩

/-- Dashboard fixture whose profile-creation call fails (message `boom`)
exactly for profile `p1` and succeeds everywhere else. -/
def dashFail1 : Dash :=
  ⟨fun _ p => if p == "p1".data then Except.error "boom".data else Except.ok "R9".data,
   fun _ _ _ => Except.ok (),
   fun _ => Except.ok [],
   fun _ _ => Except.ok ()⟩

/-- Change-set fixture: profiles `p1`, `p2` on network `n1` and `p2` on
network `n2`, all `add` with sentinel `none` AP lists. -/
def changesW : List (Str × NetEntry) :=
  [("n1".data, ⟨"N1".data,
      [("p1".data, ⟨["none".data], Oper.add, none⟩),
       ("p2".data, ⟨["none".data], Oper.add, none⟩)]⟩),
   ("n2".data, ⟨"N2".data, [("p2".data, ⟨["none".data], Oper.add, none⟩)]⟩)]

/-- Witness for C6: creation of `p1` on `n1` fails while `p2` on `n1` and
`p2` on `n2` proceed; the failing profile contributes exactly its one
record. -/
theorem upload_failure_isolation_witness :
    (changesWF ["p1".data, "p2".data] changesW = true)
    ∧ ((upload_profiles dashFail1 ["p1".data, "p2".data] changesW).errors
        = changesW.flatMap (fun ne => ne.2.rf.flatMap
            (fun pe => (uploadProfile dashFail1 ["p1".data, "p2".data] ne.1 ne.2.id pe.1 pe.2).errors)))
    ∧ ((uploadProfile dashFail1 ["p1".data, "p2".data] "n1".data "N1".data "p1".data
          ⟨["none".data], Oper.add, none⟩).errors
        = [⟨"n1".data, "p1".data, "boom".data⟩])
    ∧ ((upload_profiles dashFail1 ["p1".data, "p2".data] changesW).errors
        = [⟨"n1".data, "p1".data, "boom".data⟩]) :=
  ⟨by decide,
   (upload_failure_isolation dashFail1 ["p1".data, "p2".data] changesW (by decide)).1,
   ((upload_failure_isolation dashFail1 ["p1".data, "p2".data] changesW (by decide)).2.2
      "n1".data "N1".data "p1".data ⟨["none".data], Oper.add, none⟩ "boom".data
      (by decide) (Or.inl ⟨rfl, by rfl⟩)).1,
   by decide⟩

theorem assignLoop_all_ok (dash : Dash) (rfid : Str) :
    ∀ (l : List Str), (∀ ap ∈ l, dash.radioRes ap rfid = Except.ok ()) →
      assignLoop dash rfid l = (l.map (fun ap => Call.setRadio ap rfid), none)
  | [], _ => rfl
  | ap :: l, h => by
      unfold assignLoop
      rw [h ap (List.mem_cons_self ap l)]
      rw [assignLoop_all_ok dash rfid l (fun x hx => h x (List.mem_cons_of_mem ap hx))]
      rfl

/-- Resolution of the sentinel `all` when the device listing succeeds but
no model matches: one `getDevices` call, no assignment loop, no failure. -/
theorem apPhase_all_nodevs (dash : Dash) (network netid pname rfid : Str)
    (a : Str) (rest : List Str) (devs : List Device)
    (hall : pyLower a = "all".data)
    (hdev : dash.devicesRes netid = Except.ok devs)
    (hfil : devs.filter (fun d => hasMR d.model) = []) :
    apPhase dash network netid pname rfid (a :: rest)
      = ⟨[], [Call.getDevices netid], false⟩ := by
  have h1 : (pyLower a == "none".data) = false := by rw [hall]; decide
  have h2 : (pyLower a == "all".data) = true := by rw [hall]; decide
  unfold apPhase
  simp only [h1, h2, hdev, Bool.false_eq_true, if_false, if_true]
  rw [hfil]
  simp [assignLoop, errOut]

/-- C8: when a profile's AP target starts with the sentinel `all`, the
profile mutation succeeded, and the device listing succeeds but yields no
device whose model matches, the profile contributes no failure record and
no per-device radio-settings call is made. -/
theorem all_sentinel_zero_devices_noop (dash : Dash) (ts : List Str)
    (network netid pname : Str) (e : PEntry) (a : Str) (rest : List Str)
    (devs : List Device)
    (hc : ts.contains pname = true)
    (haps : e.aps = a :: rest)
    (hall : pyLower a = "all".data)
    (hmut : (e.oper = Oper.add ∧ ∃ rid, dash.createRes netid pname = Except.ok rid)
      ∨ (e.oper = Oper.update
          ∧ ∃ r, e.id = some r ∧ dash.updateRes netid r pname = Except.ok ()))
    (hdev : dash.devicesRes netid = Except.ok devs)
    (hfil : devs.filter (fun d => hasMR d.model) = []) :
    (uploadProfile dash ts network netid pname e).errors = []
    ∧ ∀ sr rf, Call.setRadio sr rf ∉ (uploadProfile dash ts network netid pname e).calls := by
  rcases hmut with ⟨hoper, rid, hcr⟩ | ⟨hoper, r, hid, hupd⟩
  · have heq : uploadProfile dash ts network netid pname e
        = ⟨[], [Call.createProf netid pname, Call.getDevices netid], false⟩ := by
      unfold uploadProfile
      rw [hc, hoper, hcr]
      dsimp only
      rw [haps, apPhase_all_nodevs dash network netid pname rid a rest devs hall hdev hfil]
      simp
    rw [heq]
    exact ⟨rfl, by intro sr rf hmem; simp at hmem⟩
  · have heq : uploadProfile dash ts network netid pname e
        = ⟨[], [Call.updateProf netid r pname, Call.getDevices netid], false⟩ := by
      unfold uploadProfile
      rw [hc, hoper, hid]
      dsimp only
      rw [hupd]
      dsimp only
      rw [haps, apPhase_all_nodevs dash network netid pname r a rest devs hall hdev hfil]
      simp
    rw [heq]
    exact ⟨rfl, by intro sr rf hmem; simp at hmem⟩

/-- Dashboard fixture: everything succeeds; created profiles get id `R1`;
the only device on any network is a non-wireless switch model `MS220`. -/
def dashMS : Dash :=
  ⟨fun _ _ => Except.ok "R1".data,
   fun _ _ _ => Except.ok (),
   fun _ => Except.ok [⟨"s9".data, "MS220".data⟩],
   fun _ _ => Except.ok ()⟩

/-- Witness for C8: `aps = ["all"]` on a network whose only device is a
switch (`MS220`, no `MR`): no failure, no radio-settings call. -/
theorem all_sentinel_zero_devices_noop_witness :
    ((["p1".data] : List Str).contains "p1".data = true)
    ∧ ([⟨"s9".data, "MS220".data⟩] : List Device).filter (fun d => hasMR d.model) = []
    ∧ (uploadProfile dashMS ["p1".data] "n1".data "N1".data "p1".data
        ⟨["all".data], Oper.add, none⟩).errors = []
    ∧ ∀ sr rf, Call.setRadio sr rf ∉ (uploadProfile dashMS ["p1".data] "n1".data "N1".data
        "p1".data ⟨["all".data], Oper.add, none⟩).calls :=
  ⟨by decide, by decide,
    (all_sentinel_zero_devices_noop dashMS ["p1".data] "n1".data "N1".data "p1".data
      ⟨["all".data], Oper.add, none⟩ "all".data [] [⟨"s9".data, "MS220".data⟩]
      (by decide) rfl (by decide)
      (Or.inl ⟨rfl, "R1".data, by rfl⟩) (by rfl) (by decide)).1,
    (all_sentinel_zero_devices_noop dashMS ["p1".data] "n1".data "N1".data "p1".data
      ⟨["all".data], Oper.add, none⟩ "all".data [] [⟨"s9".data, "MS220".data⟩]
      (by decide) rfl (by decide)
      (Or.inl ⟨rfl, "R1".data, by rfl⟩) (by rfl) (by decide)).2⟩

/-- C9 (amended): resolving the sentinel `all` selects exactly the devices
whose model string CONTAINS `MR` as a substring (`"MR" in d["model"]`),
not a prefix test: after a successful create, the trace is the create
call, the device listing, and one radio-settings call per matching device;
a serial receives a radio-settings call if and only if some listed device
carries it with a model containing `MR`. -/
theorem all_sentinel_selects_mr_substring (dash : Dash) (ts : List Str)
    (network netid pname : Str) (a : Str) (rest : List Str)
    (devs : List Device) (rid : Str)
    (hc : ts.contains pname = true)
    (hall : pyLower a = "all".data)
    (hcr : dash.createRes netid pname = Except.ok rid)
    (hdev : dash.devicesRes netid = Except.ok devs)
    (hok : ∀ d ∈ devs, dash.radioRes d.serial rid = Except.ok ()) :
    ((uploadProfile dash ts network netid pname ⟨a :: rest, Oper.add, none⟩).calls
      = Call.createProf netid pname :: Call.getDevices netid
          :: (devs.filter (fun d => hasMR d.model)).map
              (fun d => Call.setRadio d.serial rid))
    ∧ ∀ sr, (Call.setRadio sr rid
          ∈ (uploadProfile dash ts network netid pname ⟨a :: rest, Oper.add, none⟩).calls
        ↔ ∃ d ∈ devs, d.serial = sr ∧ hasMR d.model = true) := by
  have h1 : (pyLower a == "none".data) = false := by rw [hall]; decide
  have h2 : (pyLower a == "all".data) = true := by rw [hall]; decide
  have hser : ∀ ap ∈ (devs.filter (fun d => hasMR d.model)).map Device.serial,
      dash.radioRes ap rid = Except.ok () := by
    intro ap hap
    obtain ⟨d, hd, rfl⟩ := List.mem_map.mp hap
    exact hok d (List.mem_filter.mp hd).1
  have happ : apPhase dash network netid pname rid (a :: rest)
      = ⟨[], Call.getDevices netid
            :: (devs.filter (fun d => hasMR d.model)).map
                (fun d => Call.setRadio d.serial rid), false⟩ := by
    unfold apPhase
    simp only [h1, h2, hdev, Bool.false_eq_true, if_false, if_true]
    rw [assignLoop_all_ok dash rid _ hser]
    simp [errOut, List.map_map]
  have heq : uploadProfile dash ts network netid pname ⟨a :: rest, Oper.add, none⟩
      = ⟨[], Call.createProf netid pname :: Call.getDevices netid
            :: (devs.filter (fun d => hasMR d.model)).map
                (fun d => Call.setRadio d.serial rid), false⟩ := by
    unfold uploadProfile
    rw [hc]
    dsimp only
    rw [hcr]
    dsimp only
    rw [happ]
    simp
  refine ⟨by rw [heq], ?_⟩
  intro sr
  rw [heq]
  simp only [List.mem_cons, List.mem_map, List.mem_filter]
  constructor
  · rintro (h | h | ⟨d, ⟨hd, hmr⟩, hcall⟩)
    · exact absurd h (by simp)
    · exact absurd h (by simp)
    · obtain ⟨hs, -⟩ := Call.setRadio.inj hcall
      exact ⟨d, hd, hs, hmr⟩
  · rintro ⟨d, hd, rfl, hmr⟩
    exact Or.inr (Or.inr ⟨d, ⟨hd, hmr⟩, rfl⟩)

/-- Witness for C9's amended theorem: two devices, model `MR33` (contains
and starts with `MR`) and model `MS220` (neither); only the former is
assigned. -/
def dashMix : Dash :=
  ⟨fun _ _ => Except.ok "R1".data,
   fun _ _ _ => Except.ok (),
   fun _ => Except.ok [⟨"s1".data, "MR33".data⟩, ⟨"s9".data, "MS220".data⟩],
   fun _ _ => Except.ok ()⟩

theorem all_sentinel_selects_mr_substring_witness :
    ((["p1".data] : List Str).contains "p1".data = true)
    ∧ ((uploadProfile dashMix ["p1".data] "n1".data "N1".data "p1".data
          ⟨["all".data], Oper.add, none⟩).calls
        = Call.createProf "N1".data "p1".data :: Call.getDevices "N1".data
            :: (([⟨"s1".data, "MR33".data⟩, ⟨"s9".data, "MS220".data⟩] : List Device).filter
                  (fun d => hasMR d.model)).map
                (fun d => Call.setRadio d.serial "R1".data)) :=
  ⟨by decide,
    (all_sentinel_selects_mr_substring dashMix ["p1".data] "n1".data "N1".data "p1".data
      "all".data [] [⟨"s1".data, "MR33".data⟩, ⟨"s9".data, "MS220".data⟩] "R1".data
      (by decide) (by decide) (by rfl) (by rfl)
      (by intro d hd; rfl)).1⟩

/-- Dashboard fixture for the C9 counterexample: the only device has model
`XMR1`, which contains `MR` but does not start with it. -/
def dashX : Dash :=
  ⟨fun _ _ => Except.ok "R1".data,
   fun _ _ _ => Except.ok (),
   fun _ => Except.ok [⟨"s1".data, "XMR1".data⟩],
   fun _ _ => Except.ok ()⟩

/-- C9 counterexample: under `aps = ["all"]` the device with model `XMR1`
IS assigned (a radio-settings call for serial `s1` appears in the trace)
although its model does not start with `MR` — the source uses the
containment test `"MR" in d["model"]`, not a prefix check. -/
theorem mr_substring_not_prefix_counterexample :
    Call.setRadio "s1".data "R1".data
        ∈ (uploadProfile dashX ["p1".data] "n1".data "N1".data "p1".data
            ⟨["all".data], Oper.add, none⟩).calls
    ∧ startsWithMR "XMR1".data = false
    ∧ hasMR "XMR1".data = true := by
  decide

/-- Dashboard fixture where every call succeeds and created profiles get
id `R1`. -/
def dashOK : Dash :=
  ⟨fun _ _ => Except.ok "R1".data,
   fun _ _ _ => Except.ok (),
   fun _ => Except.ok [],
   fun _ _ => Except.ok ()⟩

/-- C3 (code bug): a valid single-profile row with an EMPTY `APs` column
is accepted with AP list `[""]` (Python's `"".split(",")`), and during
apply the guard `aps == "" or aps[0].lower() == "none"` is false (`aps`
is a list, and `"" != "none"`), so `upload_profiles` issues one
per-device radio-settings call with the empty serial instead of the no-op
the spec describes. -/
theorem emptyAps_entry_triggers_radio_call :
    ((validateAssignments [("n1".data, ⟨"N1".data, []⟩)] ["p1".data]
        [⟨"n1".data, "p1".data, "".data⟩]).updates
      = [("n1".data, ⟨"N1".data, [("p1".data, ⟨[[]], Oper.add, none⟩)]⟩)])
    ∧ ((upload_profiles dashOK ["p1".data]
          [("n1".data, ⟨"N1".data, [("p1".data, ⟨[[]], Oper.add, none⟩)]⟩)]).calls
        = [Call.createProf "N1".data "p1".data, Call.setRadio [] "R1".data])
    ∧ ((upload_profiles dashOK ["p1".data]
          [("n1".data, ⟨"N1".data, [("p1".data, ⟨[[]], Oper.add, none⟩)]⟩)]).errors = []) := by
  decide
